import Mathlib

/-!
Verification development for the playlist-generation core of the `ai-dj`
repository (`music_utils.py`).  The Python functions are shallowly embedded
as executable Lean definitions:

* `interpret_user_query`   — constraint extraction (music_utils.py:354-510);
* `generate_from_constraints` / `generate_constrained_playlist`
                           — playlist assembly (music_utils.py:579-754);
* `song_matches_genre`, `find_cached_match`, `validate_playlist`, … — the
  helpers those functions call.

External collaborators (the Spotify snapshot, the Last.fm lookups, the
OpenAI completion calls, and the `difflib` similarity ratio) are modelled as
fields of an explicit environment record `Env`: each is a pure function
describing the fixed behaviour of that collaborator during one request.
Machine reals from Python are modelled with `Nat`/`Int`/`Rat`; the exact
rational value stands in for the IEEE float where the two can differ only on
fractional corner cases none of the claims touch.  Python dictionaries with
optional keys are modelled as structures of `Option` fields, with Python
string truthiness (`None` and the empty string are falsy) made explicit.
Log and reason strings are abbreviated where their exact text is irrelevant
to every claim (no claim inspects the wording of a trace line).
-/

/-! ## Python string primitives -/

/-- Python whitespace class `\s` (ASCII part). -/
def pyIsSpace (c : Char) : Bool :=
  c = ' ' || c = '\t' || c = '\n' || c = '\x0d' || c = '\x0b' || c = '\x0c'

/-- Python `str.lower` restricted to the ASCII strings the claims use
(kernel-computable restatement of `String.toLower`). -/
def pyLower (s : String) : String := String.mk (s.data.map Char.toLower)

/-- Python `str.strip`: drop surrounding whitespace (kernel-computable
restatement of `String.trim`). -/
def pyStrip (s : String) : String :=
  String.mk (((s.data.dropWhile pyIsSpace).reverse.dropWhile pyIsSpace).reverse)

/-- Python word-character class `\w` (ASCII part). -/
def isWordChar (c : Char) : Bool := c.isAlphanum || c = '_'

/-- Substring containment on char lists, `needle` inside `hay`. -/
def listContains (needle : List Char) : List Char → Bool
  | [] => needle.isEmpty
  | c :: cs => needle.isPrefixOf (c :: cs) || listContains needle cs

/-- Python `needle in hay` on strings. -/
def containsSub (hay needle : String) : Bool := listContains needle.toList hay.toList

/-- Case-insensitive `needle.lower() in hay.lower()`. -/
def containsSubCI (hay needle : String) : Bool := containsSub (pyLower hay) (pyLower needle)

/-- Case-insensitive literal-prefix test on char lists. -/
def startsWithCI (l : List Char) (pat : String) : Bool :=
  (l.take pat.length).map Char.toLower = pat.toList.map Char.toLower

/-! ## Duration extraction: the regex
`(\d+(\.\d+)?)\s*(hour|hr|min|minutes)` with `re.IGNORECASE`
(music_utils.py:358).  A match is returned as
(integer part, fraction numerator, fraction digit count, unit). -/

structure DurMatch where
  intPart : Nat
  fracNum : Nat
  fracLen : Nat
  unit : String
deriving DecidableEq, Repr

/-- Digits to the number they denote. -/
def digitsToNat (ds : List Char) : Nat :=
  ds.foldl (fun a c => a * 10 + (c.toNat - 48)) 0

/-- The alternation `(hour|hr|min|minutes)`, alternatives tried in order,
matched case-insensitively as a prefix of `l`. -/
def matchUnit (l : List Char) : Option String :=
  if startsWithCI l "hour" then some "hour"
  else if startsWithCI l "hr" then some "hr"
  else if startsWithCI l "min" then some "min"
  else if startsWithCI l "minutes" then some "minutes"
  else none

/-- Attempt the duration regex anchored at the head of `l`: greedy `\d+`,
optional `(\.\d+)?` (tried with the fraction first, then without, as the
backtracking engine does), greedy `\s*`, then the unit alternation. -/
def tryDurAt (l : List Char) : Option DurMatch :=
  let ds := l.takeWhile Char.isDigit
  let rest := l.dropWhile Char.isDigit
  if ds.isEmpty then none
  else
    let tail (fn fl : Nat) (r : List Char) : Option DurMatch :=
      (matchUnit (r.dropWhile pyIsSpace)).map
        (fun u => ⟨digitsToNat ds, fn, fl, u⟩)
    match rest with
    | '.' :: r2 =>
      let fs := r2.takeWhile Char.isDigit
      if fs.isEmpty then tail 0 0 rest
      else
        match tail (digitsToNat fs) fs.length (r2.dropWhile Char.isDigit) with
        | some m => some m
        | none => tail 0 0 rest
    | _ => tail 0 0 rest

/-- `re.search` semantics: the leftmost start position admitting a match. -/
def scanDuration : List Char → Option DurMatch
  | [] => none
  | c :: cs =>
    match tryDurAt (c :: cs) with
    | some m => some m
    | none => scanDuration cs

/-- Conversion performed at music_utils.py:361-365: `float(group(1))`,
multiplied by 60 when `"hour" in group(3).lower()`, then truncated by
`int(...)`.  Computed exactly over rationals. -/
def durationOfMatch (m : DurMatch) : Nat :=
  if containsSub (pyLower m.unit) "hour" then
    (m.intPart * 10 ^ m.fracLen + m.fracNum) * 60 / 10 ^ m.fracLen
  else m.intPart

/-- The full duration heuristic (music_utils.py:358-371): regex value when
present, otherwise 60. -/
def extract_duration (q : String) : Nat :=
  match scanDuration q.toList with
  | some m => durationOfMatch m
  | none => 60

/-! ## Theme, genre, flag and artist heuristics
(music_utils.py:372-436). -/

def cinematicGenres : List String :=
  ["orchestral", "cinematic", "electronic", "synthwave", "ambient"]

def cinematicMoods : List String := ["epic", "dramatic", "adventurous"]

def relaxGenres : List String := ["lofi", "chill", "ambient", "soft rock", "indie"]

def relaxMoods : List String := ["calm", "peaceful", "soothing"]

def knownGenres : List String :=
  ["bollywood", "hollywood", "disney", "pop", "rock", "hip hop", "rap", "jazz",
   "classical", "electronic", "edm", "country", "indie", "metal", "reggae", "r&b"]

/-- Genre/mood theme detection over the lowercased query
(music_utils.py:372-393): cinematic terms first, then relaxation terms,
then the first matching known genre. -/
def themeDetect (lower : String) : List String × List String :=
  if ["movie", "soundtrack", "cinematic"].any (fun t => containsSub lower t) then
    (cinematicGenres, cinematicMoods)
  else if ["relax", "stress"].any (fun t => containsSub lower t) then
    (relaxGenres, relaxMoods)
  else
    match knownGenres.find? (fun g => containsSub lower g) with
    | some g => ([g], [])
    | none => ([], [])

/-- The regex `\bBPM\b` with `re.IGNORECASE` (music_utils.py:396): an
occurrence of `bpm` with a word boundary on each side.  `prev` is the
character just before the current scan position. -/
def scanBpmFlag : Option Char → List Char → Bool
  | _, [] => false
  | prev, c :: cs =>
    (startsWithCI (c :: cs) "bpm"
      && (match prev with
          | none => true
          | some p => !isWordChar p)
      && (match (c :: cs).drop 3 with
          | [] => true
          | a :: _ => !isWordChar a))
    || scanBpmFlag (some c) cs

def concernBpmOf (q : String) : Bool := scanBpmFlag none q.toList

def useOnlyPhrases : List String :=
  ["only my liked songs", "using my liked songs", "using my favorites",
   "using only my liked songs", "using only my favorites"]

def instrumentList : List String :=
  ["guitar", "piano", "violin", "drums", "saxophone", "flute", "bass", "cello",
   "trumpet", "harp", "ukulele", "mandolin"]

/-- The regex `by ([\w\s]+)$` with `re.IGNORECASE` (music_utils.py:416):
leftmost occurrence of `by ` whose entire remaining suffix is one or more
word/space characters.  The captured suffix is returned unstripped. -/
def scanByArtist : List Char → Option (List Char)
  | [] => none
  | c :: cs =>
    (if startsWithCI (c :: cs) "by " then
      let suf := (c :: cs).drop 3
      if !suf.isEmpty && suf.all (fun ch => isWordChar ch || pyIsSpace ch) then
        some suf
      else none
    else none).elim (scanByArtist cs) some

/-- Helper for the lazy group of `sound like ([\w\s]+?)\s+but`: `rest` must
start with one or more whitespace characters followed by the literal
`but`. -/
def spacesThenBut (rest : List Char) : Bool :=
  !(rest.takeWhile pyIsSpace).isEmpty
    && startsWithCI (rest.dropWhile pyIsSpace) "but"

/-- The lazy group `([\w\s]+?)` of the reference-track regex: grow the group
one character at a time, testing the tail after each growth step.  On an
empty tail `spacesThenBut` is false, so that arm is a plain failure. -/
def lazyGroup (acc : List Char) : List Char → Option (List Char)
  | [] => none
  | c :: cs =>
    if !acc.isEmpty && spacesThenBut (c :: cs) then some acc.reverse
    else if isWordChar c || pyIsSpace c then lazyGroup (c :: acc) cs
    else none

/-- The regex `sound like ([\w\s]+?)\s+but` (music_utils.py:493) over the
lowercased query: leftmost occurrence of `sound like ` admitting a
completion, lazily shortest group. -/
def scanSoundLike : List Char → Option (List Char)
  | [] => none
  | c :: cs =>
    (if startsWithCI (c :: cs) "sound like " then
      lazyGroup [] ((c :: cs).drop 11)
    else none).elim (scanSoundLike cs) some

/-! ## The extracted-constraint record and the LLM merge
(music_utils.py:422-510). -/

/-- The constraint dictionary returned by `interpret_user_query`.
`targetArtist` mirrors `constraints.get("target_artist")` at
music_utils.py:617; the extraction regex result is stored in the local
`extracted_data` dictionary, which is built and then discarded, so the
returned dictionary never carries the key. -/
structure Constraints where
  explicitSongCount : Option Nat := none
  durationMinutes : Nat := 60
  bpmRange : Int × Int := (60, 130)
  genres : List String := ["any"]
  releaseYearRange : Int × Int := (2019, 2024)
  moodConstraints : List String := []
  useOnlyUserSongs : Bool := false
  referenceTrack : Option String := none
  concernBpm : Bool := false
  gradualBpm : Bool := false
  instrument : Option String := none
  excludeArtist : Option String := none
  targetArtist : Option String := none
deriving DecidableEq, Repr

/-- The JSON object parsed out of the completion response; each field is
`none` when the key is absent or null.  A failed call or unparseable
response is the record with every field `none` (`extracted_json = {}`). -/
structure LlmJson where
  explicitSongCount : Option Nat := none
  durationMinutes : Option Nat := none
  bpmRange : Option (Int × Int) := none
  genres : Option (List String) := none
  releaseYearRange : Option (Int × Int) := none
  moodConstraints : Option (List String) := none
  useOnlyUserSongs : Option Bool := none
  referenceTrack : Option String := none
  instrument : Option String := none
deriving DecidableEq, Repr

/-- Result of `get_reference_track_details` (music_utils.py:287-316). -/
structure RefDetails where
  title : Option String := none
  artist : Option String := none
deriving DecidableEq, Repr

/-- Python truthiness of an optional string: `None` and `""` are falsy. -/
def truthyS (o : Option String) : Bool :=
  match o with
  | some s => !(s == "")
  | none => false

/-- `interpret_user_query` (music_utils.py:354-510).  `refLookup` is the
external `get_reference_track_details` collaborator and `llm` the parsed
completion response (all-`none` on failure).  Heuristic fields fill any
`None` field of the response; `concern_bpm` and `gradual_bpm` are
overwritten with the heuristic values unconditionally. -/
def interpret_user_query (refLookup : String → Option RefDetails)
    (llm : LlmJson) (q : String) : Constraints :=
  let lower := pyLower q
  let extractedDuration := extract_duration q
  let theme := themeDetect lower
  let genres0 := theme.1
  let moods0 := theme.2
  let concernBpm := concernBpmOf q
  let useOnly := useOnlyPhrases.any (fun t => containsSub lower t)
  let gradual := containsSub lower "increase" || containsSub lower "progress"
  let instrument0 := instrumentList.find? (fun i => containsSub lower i)
  let excludeFlag := containsSub lower "not his music"
    || containsSub lower "but are not his music"
  let ref0 := llm.referenceTrack
  let ref1 := if truthyS ref0 then ref0
    else
      match scanSoundLike lower.toList with
      | some g => some (pyStrip (String.mk g))
      | none => ref0
  let exclude :=
    if excludeFlag && truthyS ref1 then
      match refLookup (ref1.getD "") with
      | some rd =>
        if truthyS rd.artist then some (pyLower (pyStrip (rd.artist.getD "")))
        else some (pyLower (pyStrip (ref1.getD "")))
      | none => some (pyLower (pyStrip (ref1.getD "")))
    else none
  { explicitSongCount := llm.explicitSongCount
    durationMinutes := llm.durationMinutes.getD extractedDuration
    bpmRange := llm.bpmRange.getD (60, 130)
    genres := llm.genres.getD (if genres0.isEmpty then ["any"] else genres0)
    releaseYearRange := llm.releaseYearRange.getD (2019, 2024)
    moodConstraints := llm.moodConstraints.getD moods0
    useOnlyUserSongs := llm.useOnlyUserSongs.getD useOnly
    referenceTrack := ref1
    concernBpm := concernBpm
    gradualBpm := gradual
    instrument := match llm.instrument with
      | some i => some i
      | none => instrument0
    excludeArtist := exclude
    targetArtist := none }

/-! ## Candidate tracks and the user snapshot
(the dictionaries flowing through `generate_constrained_playlist`).
A `Song` models one Python dictionary; a field is `none` when the key is
absent (or, for `bpm`, holds the string `"Unknown"`). -/

structure Song where
  name : Option String := none
  title : Option String := none
  artist : String
  bpm : Option Int := none
  releaseYear : Option Int := none
  liked : Option Bool := none
  mood : Option String := none
  source : Option String := none
  reason : Option String := none
  albumCover : Option String := none
  uri : Option String := none
  labeledGenres : Option (List String) := none
deriving DecidableEq, Repr

/-- The finalized output record built at music_utils.py:736-747. -/
structure Track where
  title : Option String
  artist : String
  liked : Bool
  mood : String
  source : String
  reason : String
  bpm : Option Int
  albumCover : Option String
  uri : Option String
deriving DecidableEq, Repr

/-- A Last.fm `track.getSimilar` entry (music_utils.py:339-347). -/
structure LfmRec where
  title : Option String := none
  artist : String
deriving DecidableEq, Repr

/-- One parsed item of the generative-fallback JSON list
(music_utils.py:697-699). -/
structure AiSong where
  title : Option String := none
  artist : String
  bpm : Option Int := none
  releaseYear : Option Int := none
deriving DecidableEq, Repr

/-- The fixed behaviour of every external collaborator during one request:
the user snapshot (liked songs and top tracks), the per-artist genre lookup
used by `song_matches_genre`, the reference resolution and similar-track
services, the generative completion for both the extraction call (`llm`)
and the fallback call (`aiResult`, indexed by the requested shortfall
count, `none` when the response yields no JSON list), and the string
similarity ratio of `difflib.SequenceMatcher` used by
`find_cached_match`. -/
structure Env where
  likedSongs : List Song
  topTracks : List Song
  artistGenres : String → Option (List String)
  refDetails : String → Option RefDetails
  similar : Option String → Option String → Nat → List LfmRec
  aiResult : Nat → Option (List AiSong)
  llm : LlmJson
  simScore : String → String → ℚ

/-- `song_matches_genre` (music_utils.py:250-268): substring matching of
each target genre against the cached `labeled_genres`, or against an
external per-artist genre lookup when the song has no cached label; a
failed lookup returns false. -/
def song_matches_genre (artistGenres : String → Option (List String))
    (song : Song) (target : List String) : Bool :=
  match song.labeledGenres with
  | some gs => target.any (fun tg => gs.any (fun g => containsSub (pyLower g) (pyLower tg)))
  | none =>
    match artistGenres song.artist with
    | some gs => target.any (fun tg => gs.any (fun g => containsSub (pyLower g) (pyLower tg)))
    | none => false

/-- Resolved target count (music_utils.py:590-599): the explicit song count
when present, otherwise `max(5, round(duration / 4))` with Python bankers
rounding; `duration / 4` is exactly representable, so the rounding is
exact. -/
def pyRoundDiv4 (d : Nat) : Nat :=
  let q := d / 4
  let r := d % 4
  if r < 2 then q
  else if r = 3 then q + 1
  else if q % 2 = 0 then q else q + 1

def targetCount (c : Constraints) : Nat :=
  match c.explicitSongCount with
  | some n => n
  | none => max 5 (pyRoundDiv4 c.durationMinutes)

/-- `int((bpm_start + bpm_end) / 2)` — float truncation toward zero. -/
def midOf (c : Constraints) : Int := Int.tdiv (c.bpmRange.1 + c.bpmRange.2) 2

/-- The artist test of the personal branch (music_utils.py:617-619):
skip a song unless the target artist is a case-insensitive substring of the
song artist; no filtering when the key is absent or empty. -/
def personalKeep (env : Env) (c : Constraints) (s : Song) : Bool :=
  (if truthyS c.targetArtist then
    containsSub (pyLower s.artist) (pyLower (c.targetArtist.getD ""))
  else true)
  && song_matches_genre env.artistGenres s c.genres

/-- Tag applied to a personal candidate (music_utils.py:625-626).  The
reason text is abbreviated; no claim reads it. -/
def tagPersonal (s : Song) : Song :=
  { s with source := some "personal", reason := some "Matches genre constraint." }

/-- The personal-branch pool (music_utils.py:611-633): liked songs plus top
tracks, filtered by the optional artist test and the genre test, in
snapshot order. -/
def personalPool (env : Env) (c : Constraints) : List Song :=
  ((env.likedSongs ++ env.topTracks).filter (personalKeep env c)).map tagPersonal

/-- A Last.fm recommendation shaped as at music_utils.py:339-351 and tagged
as at music_utils.py:649-651. -/
def lfmSong (r : LfmRec) : Song :=
  { title := r.title, artist := r.artist, bpm := none, releaseYear := none,
    liked := some false, mood := some "Unknown",
    source := some "Last.fm",
    reason := some "Recommended by Last.fm based on reference track." }

/-- The reference-track branch (music_utils.py:635-657): resolve the
reference best-effort, query the similarity service with the target count
as limit, tag the results.  An unresolved reference falls back to the raw
text with artist `"Unknown"`. -/
def externalPool (env : Env) (c : Constraints) (numSongs : Nat) : List Song :=
  match c.referenceTrack with
  | some ref =>
    if ref == "" then []
    else
      let rd := env.refDetails ref
      let nameQ : Option String := match rd with
        | some d => d.title
        | none => some ref
      let artistQ : Option String := match rd with
        | some d => d.artist
        | none => some "Unknown"
      (env.similar nameQ artistQ numSongs).map lfmSong
  | none => []

/-- Branch selection before the exclusion filter (music_utils.py:610-657). -/
def prePool (env : Env) (c : Constraints) (numSongs : Nat) : List Song :=
  if c.useOnlyUserSongs then personalPool env c
  else externalPool env c numSongs

/-- The `exclude_artist` filter (music_utils.py:658-663), applied to the
pool that exists before the generative fallback runs. -/
def applyExclude (c : Constraints) (l : List Song) : List Song :=
  if truthyS c.excludeArtist then
    l.filter (fun s =>
      !(pyLower (pyStrip s.artist) == pyLower (pyStrip (c.excludeArtist.getD ""))))
  else l

def basePool (env : Env) (c : Constraints) : List Song :=
  applyExclude c (prePool env c (targetCount c))

/-- A generative-fallback song as shaped at music_utils.py:700-703. -/
def aiSongToSong (a : AiSong) : Song :=
  { title := a.title, artist := a.artist, bpm := a.bpm,
    releaseYear := a.releaseYear, liked := some false,
    source := some "AI",
    reason := some "Generated by AI to meet remaining song count." }

/-- The generative fallback contribution (music_utils.py:664-712): one
completion call for the shortfall; a failed call or a response without a
JSON list contributes nothing. -/
def aiPool (env : Env) (needed : Nat) : List Song :=
  match env.aiResult needed with
  | some l => l.map aiSongToSong
  | none => []

/-- Tempo backfill (music_utils.py:713-716): unknown bpm becomes the range
midpoint. -/
def backfillSong (m : Int) (s : Song) : Song :=
  if s.bpm.isNone then { s with bpm := some m } else s

/-- Sort key `s.get("bpm", mid)` of the gradual-tempo sort. -/
def bpmKey (m : Int) (s : Song) : Int := s.bpm.getD m

/-- The gradual-tempo arrangement (music_utils.py:717-720): Python `sorted`
is a stable ascending sort, embedded as the (unique) stable sort
`List.insertionSort` on the bpm key. -/
def bpmLe (m : Int) (a b : Song) : Prop := bpmKey m a ≤ bpmKey m b

instance (m : Int) : DecidableRel (bpmLe m) :=
  fun a b => inferInstanceAs (Decidable (bpmKey m a ≤ bpmKey m b))

def sortByBpm (m : Int) (l : List Song) : List Song :=
  List.insertionSort (bpmLe m) l

/-- The full candidate pool before truncation: branch pool, exclusion
filter, generative top-up when short, tempo backfill, optional gradual
sort (music_utils.py:610-720). -/
def pooledSongs (env : Env) (c : Constraints) : List Song :=
  let n := targetCount c
  let base := basePool env c
  let withAi := if base.length < n then base ++ aiPool env (n - base.length) else base
  let bf := withAi.map (backfillSong (midOf c))
  if c.gradualBpm then sortByBpm (midOf c) bf else bf

/-- The title used by the fuzzy matcher:
`song.get("title") or song.get("name", "")`. -/
def matchKeyTitle (s : Song) : String :=
  match s.title with
  | some t => if t == "" then s.name.getD "" else t
  | none => s.name.getD ""

/-- `find_cached_match` (music_utils.py:569-577): first cached song whose
title and artist similarity ratios both exceed the 0.7 threshold
(written `mkRat 7 10`). -/
def find_cached_match (score : String → String → ℚ) (song : Song)
    (cached : List Song) : Option Song :=
  cached.find? (fun cs =>
    decide (score (matchKeyTitle song) (cs.name.getD "") > mkRat 7 10)
    && decide (score song.artist cs.artist > mkRat 7 10))

def placeholderUrl : String := "https://via.placeholder.com/200"

/-- One enrichment step (music_utils.py:726-734): fuzzy-backfill album
cover and uri when either is missing, then default missing artwork to the
placeholder. -/
def enrichSong (score : String → String → ℚ) (cached : List Song)
    (s : Song) : Song :=
  let s1 :=
    if !truthyS s.albumCover || !truthyS s.uri then
      match find_cached_match score s cached with
      | some m => { s with albumCover := some (m.albumCover.getD placeholderUrl),
                           uri := m.uri }
      | none => s
    else s
  if truthyS s1.albumCover then s1 else { s1 with albumCover := some placeholderUrl }

/-- Projection to the output record (music_utils.py:736-747). -/
def finalizeSong (s : Song) : Track :=
  { title := match s.name with
      | some n => some n
      | none => s.title
    artist := s.artist
    liked := s.liked.getD false
    mood := s.mood.getD "Unknown"
    source := s.source.getD "unknown"
    reason := s.reason.getD "No reason provided"
    bpm := s.bpm
    albumCover := s.albumCover
    uri := s.uri }

/-- The playlist value of a run: truncate to the target count, enrich each
survivor against the snapshot, project (music_utils.py:722-747). -/
def playlistOf (env : Env) (c : Constraints) : List Track :=
  (((pooledSongs env c).take (targetCount c)).map
      (enrichSong env.simScore (env.likedSongs ++ env.topTracks))).map
    finalizeSong

/-- linear interpolation `low + i * (high - low) / (n - 1)` used by the
validation trace (music_utils.py:533-535), exact over rationals. -/
def expectedBpm (lo hi : Int) (n i : Nat) : ℚ :=
  if 1 < n then (lo : ℚ) + (i : ℚ) * ((hi : ℚ) - (lo : ℚ)) / ((n : ℚ) - 1)
  else (lo : ℚ)

/-- Python `round` (bankers rounding) on an exact rational. -/
def pyRoundQ (x : ℚ) : Int :=
  let f := ⌊x⌋
  let r := x - (f : ℚ)
  if r < 1 / 2 then f
  else if 1 / 2 < r then f + 1
  else if f % 2 = 0 then f else f + 1

/-- The per-song mutation performed by `validate_playlist`
(music_utils.py:529-556): a song with unknown bpm gets the interpolated
expectation (gradual mode) or the midpoint fallback (bpm-checking mode)
written into it; songs with a known bpm are only reported on, not
changed. -/
def validateTrack (c : Constraints) (n i : Nat) (t : Track) : Track :=
  if c.gradualBpm then
    match t.bpm with
    | some _ => t
    | none => { t with bpm := some (pyRoundQ (expectedBpm c.bpmRange.1 c.bpmRange.2 n i)) }
  else if c.concernBpm then
    match t.bpm with
    | some _ => t
    | none => { t with bpm := some (midOf c) }
  else t

def validateFrom (c : Constraints) (n : Nat) : Nat → List Track → List Track
  | _, [] => []
  | i, t :: ts => validateTrack c n i t :: validateFrom c n (i + 1) ts

/-- The mutating pass of `validate_playlist` over the whole playlist
(music_utils.py:517-564); the log it also produces is modelled by
`traceStub`. -/
def validate_playlist (c : Constraints) (pl : List Track) : List Track :=
  validateFrom c pl.length 0 pl

/-- The debug trace (header plus one line per song); text abbreviated, no
claim reads it. -/
def traceStub (pl : List Track) : List String :=
  "Summary of validation." :: pl.map (fun t => "Validated song by " ++ t.artist ++ ".")

/-- The two result shapes `generate_constrained_playlist` can ship over the
wire: a playlist object or a structured error object.  The code only ever
builds the playlist shape; the error constructor records the shape the
specification claims for the empty-personal-pool case. -/
structure GenResult where
  playlist : List Track
  reasoning : Option (List String)
deriving DecidableEq, Repr

inductive PyResult where
  | ok : GenResult → PyResult
  | err : String → PyResult
deriving DecidableEq, Repr

def tracksOf : PyResult → List Track
  | PyResult.ok g => g.playlist
  | PyResult.err _ => []

def isOk : PyResult → Bool
  | PyResult.ok _ => true
  | PyResult.err _ => false

/-- The assembly part of `generate_constrained_playlist`
(music_utils.py:589-754), acting on already-extracted constraints.
In debug mode the playlist passes through `validate_playlist` (whose bpm
writes land in the returned list) and a reasoning trace is attached. -/
def generate_from_constraints (env : Env) (c : Constraints) (debug : Bool) : PyResult :=
  let pl := playlistOf env c
  if debug then
    let pl2 := validate_playlist c pl
    PyResult.ok ⟨pl2, some (traceStub pl2)⟩
  else PyResult.ok ⟨pl, none⟩

/-- `generate_constrained_playlist` (music_utils.py:579-754): extraction
followed by assembly.  The extraction logic is identical in debug and
non-debug mode (debug only accumulates reasoning strings). -/
def generate_constrained_playlist (env : Env) (q : String) (debug : Bool) : PyResult :=
  generate_from_constraints env (interpret_user_query env.refDetails env.llm q) debug

/-! ## Properties of the enrichment pass -/
theorem enrichSong_artist (sc : String → String → ℚ) (cached : List Song) (s : Song) :
    (enrichSong sc cached s).artist = s.artist := by
  unfold enrichSong
  cases hf : find_cached_match sc s cached <;>
    simp only [hf] <;> split <;> split <;> rfl

theorem enrichSong_liked (sc : String → String → ℚ) (cached : List Song) (s : Song) :
    (enrichSong sc cached s).liked = s.liked := by
  unfold enrichSong
  cases hf : find_cached_match sc s cached <;>
    simp only [hf] <;> split <;> split <;> rfl

theorem enrichSong_bpm (sc : String → String → ℚ) (cached : List Song) (s : Song) :
    (enrichSong sc cached s).bpm = s.bpm := by
  unfold enrichSong
  cases hf : find_cached_match sc s cached <;>
    simp only [hf] <;> split <;> split <;> rfl

theorem enrichSong_source (sc : String → String → ℚ) (cached : List Song) (s : Song) :
    (enrichSong sc cached s).source = s.source := by
  unfold enrichSong
  cases hf : find_cached_match sc s cached <;>
    simp only [hf] <;> split <;> split <;> rfl

theorem enrichSong_title (sc : String → String → ℚ) (cached : List Song) (s : Song) :
    (enrichSong sc cached s).title = s.title := by
  unfold enrichSong
  cases hf : find_cached_match sc s cached <;>
    simp only [hf] <;> split <;> split <;> rfl

theorem enrichSong_name (sc : String → String → ℚ) (cached : List Song) (s : Song) :
    (enrichSong sc cached s).name = s.name := by
  unfold enrichSong
  cases hf : find_cached_match sc s cached <;>
    simp only [hf] <;> split <;> split <;> rfl

theorem matchKeyTitle_enrich (sc : String → String → ℚ) (cached : List Song) (s : Song) :
    matchKeyTitle (enrichSong sc cached s) = matchKeyTitle s := by
  unfold matchKeyTitle
  rw [enrichSong_title, enrichSong_name]

theorem find_cached_match_enrich (sc sc2 : String → String → ℚ)
    (cached cached2 : List Song) (s : Song) :
    find_cached_match sc (enrichSong sc2 cached2 s) cached
      = find_cached_match sc s cached := by
  unfold find_cached_match
  rw [matchKeyTitle_enrich, enrichSong_artist]

theorem enrichSong_cover_truthy (sc : String → String → ℚ) (cached : List Song) (s : Song) :
    truthyS (enrichSong sc cached s).albumCover = true := by
  unfold enrichSong
  cases hf : find_cached_match sc s cached <;> simp only [hf] <;> split <;> split <;>
    first
    | assumption
    | rfl

theorem truthyS_placeholder : truthyS (some placeholderUrl) = true := rfl

theorem enrichSong_skip (sc : String → String → ℚ) (cached : List Song) (s : Song)
    (hc : (!truthyS s.albumCover || !truthyS s.uri) = false) :
    enrichSong sc cached s = s := by
  have ha : truthyS s.albumCover = true := by
    cases h1 : truthyS s.albumCover with
    | false => rw [h1] at hc; simp at hc
    | true => rfl
  unfold enrichSong
  rw [hc]
  simp [ha]

theorem enrichSong_none (sc : String → String → ℚ) (cached : List Song) (s : Song)
    (hc : (!truthyS s.albumCover || !truthyS s.uri) = true)
    (hm : find_cached_match sc s cached = none) :
    enrichSong sc cached s =
      if truthyS s.albumCover = true then s
      else { s with albumCover := some placeholderUrl } := by
  unfold enrichSong
  rw [hc, hm]
  simp

theorem enrichSong_someT (sc : String → String → ℚ) (cached : List Song) (s m : Song)
    (hc : (!truthyS s.albumCover || !truthyS s.uri) = true)
    (hm : find_cached_match sc s cached = some m)
    (hv : (m.albumCover.getD placeholderUrl == "") = false) :
    enrichSong sc cached s =
      { s with albumCover := some (m.albumCover.getD placeholderUrl), uri := m.uri } := by
  unfold enrichSong
  rw [hc, hm]
  simp [truthyS, hv]

theorem enrichSong_someF (sc : String → String → ℚ) (cached : List Song) (s m : Song)
    (hc : (!truthyS s.albumCover || !truthyS s.uri) = true)
    (hm : find_cached_match sc s cached = some m)
    (hv : (m.albumCover.getD placeholderUrl == "") = true) :
    enrichSong sc cached s =
      { s with albumCover := some placeholderUrl, uri := m.uri } := by
  unfold enrichSong
  rw [hc, hm]
  simp [truthyS, hv]

theorem enrichSong_idem (sc : String → String → ℚ) (cached : List Song) (s : Song) :
    enrichSong sc cached (enrichSong sc cached s) = enrichSong sc cached s := by
  cases hcs : (!truthyS s.albumCover || !truthyS s.uri) with
  | false =>
    rw [enrichSong_skip sc cached s hcs]
    exact enrichSong_skip sc cached s hcs
  | true =>
    cases hfm : find_cached_match sc s cached with
    | none =>
      have hch := enrichSong_none sc cached s hcs hfm
      cases hcov : truthyS s.albumCover with
      | true =>
        rw [hcov] at hch
        simp at hch
        rw [hch]
        exact hch
      | false =>
        rw [hcov] at hch
        simp at hch
        rw [hch]
        cases hu : truthyS s.uri with
        | true =>
          apply enrichSong_skip
          show (!truthyS (some placeholderUrl) || !truthyS s.uri) = false
          rw [truthyS_placeholder, hu]
          rfl
        | false =>
          have hx : find_cached_match sc { s with albumCover := some placeholderUrl }
              cached = none := hfm
          rw [enrichSong_none sc cached _ (by
            show (!truthyS (some placeholderUrl) || !truthyS s.uri) = true
            rw [truthyS_placeholder, hu]
            rfl) hx]
          rw [if_pos (by exact truthyS_placeholder)]
    | some m =>
      cases hv : (m.albumCover.getD placeholderUrl == "") with
      | true =>
        have hch := enrichSong_someF sc cached s m hcs hfm hv
        rw [hch]
        cases hu : truthyS m.uri with
        | true =>
          apply enrichSong_skip
          show (!truthyS (some placeholderUrl) || !truthyS m.uri) = false
          rw [truthyS_placeholder, hu]
          rfl
        | false =>
          have hx : find_cached_match sc { s with albumCover := some placeholderUrl, uri := m.uri } cached = some m := hfm
          rw [enrichSong_someF sc cached _ m (by
            show (!truthyS (some placeholderUrl) || !truthyS m.uri) = true
            rw [truthyS_placeholder, hu]
            rfl) hx hv]
      | false =>
        have hch := enrichSong_someT sc cached s m hcs hfm hv
        rw [hch]
        have hvt : truthyS (some (m.albumCover.getD placeholderUrl)) = true := by
          simp [truthyS, hv]
        cases hu : truthyS m.uri with
        | true =>
          apply enrichSong_skip
          show (!truthyS (some (m.albumCover.getD placeholderUrl)) || !truthyS m.uri) = false
          rw [hvt, hu]
          rfl
        | false =>
          have hx : find_cached_match sc { s with albumCover := some (m.albumCover.getD placeholderUrl), uri := m.uri } cached = some m := hfm
          rw [enrichSong_someT sc cached _ m (by
            show (!truthyS (some (m.albumCover.getD placeholderUrl)) || !truthyS m.uri) = true
            rw [hvt, hu]
            rfl) hx hv]

/-! ## Properties of backfill, validation and the gradual sort -/

theorem backfillSong_isSome (m : Int) (s : Song) :
    ((backfillSong m s).bpm).isSome = true := by
  unfold backfillSong
  cases h : s.bpm with
  | none => simp
  | some v => simp [h]

theorem backfillSong_artist (m : Int) (s : Song) :
    (backfillSong m s).artist = s.artist := by
  unfold backfillSong
  split <;> rfl

theorem backfillSong_source (m : Int) (s : Song) :
    (backfillSong m s).source = s.source := by
  unfold backfillSong
  split <;> rfl

theorem validateTrack_of_isSome (c : Constraints) (n i : Nat) (t : Track)
    (h : (t.bpm).isSome = true) : validateTrack c n i t = t := by
  unfold validateTrack
  cases hb : t.bpm with
  | none => rw [hb] at h; simp at h
  | some v => split <;> simp [hb]

theorem validateFrom_of_isSome (c : Constraints) (n : Nat) :
    ∀ (i : Nat) (pl : List Track), (∀ t ∈ pl, (t.bpm).isSome = true) →
      validateFrom c n i pl = pl := by
  intro i pl
  induction pl generalizing i with
  | nil => intro _; rfl
  | cons t ts ih =>
    intro h
    unfold validateFrom
    rw [validateTrack_of_isSome c n i t (h t (List.mem_cons_self t ts)),
      ih (i + 1) (fun x hx => h x (List.mem_cons_of_mem t hx))]

theorem validateFrom_length (c : Constraints) (n : Nat) :
    ∀ (i : Nat) (pl : List Track), (validateFrom c n i pl).length = pl.length := by
  intro i pl
  induction pl generalizing i with
  | nil => rfl
  | cons t ts ih =>
    unfold validateFrom
    simp [ih]

theorem length_sortByBpm (m : Int) (l : List Song) :
    (sortByBpm m l).length = l.length :=
  (List.perm_insertionSort (bpmLe m) l).length_eq

theorem mem_sortByBpm (m : Int) (l : List Song) (s : Song) :
    s ∈ sortByBpm m l ↔ s ∈ l :=
  (List.perm_insertionSort (bpmLe m) l).mem_iff

theorem sorted_sortByBpm (m : Int) (l : List Song) :
    List.Sorted (bpmLe m) (sortByBpm m l) := by
  haveI : IsTotal Song (bpmLe m) := ⟨fun a b => Int.le_total (bpmKey m a) (bpmKey m b)⟩
  haveI : IsTrans Song (bpmLe m) :=
    ⟨fun a b c hab hbc => le_trans hab hbc⟩
  exact List.sorted_insertionSort (bpmLe m) l

theorem filter_orderedInsert (m v : Int) (x : Song) (l : List Song) :
    (List.orderedInsert (bpmLe m) x l).filter (fun s => bpmKey m s == v)
      = if bpmKey m x == v then x :: l.filter (fun s => bpmKey m s == v)
        else l.filter (fun s => bpmKey m s == v) := by
  induction l with
  | nil =>
    by_cases hx : (bpmKey m x == v) = true <;> simp [List.orderedInsert, hx]
  | cons y ys ih =>
    unfold List.orderedInsert
    split
    · by_cases hx : (bpmKey m x == v) = true <;> simp [List.filter_cons, hx]
    · rename_i hxy
      by_cases hx : (bpmKey m x == v) = true
      · have hlt : bpmKey m y < bpmKey m x := by
          have := hxy
          unfold bpmLe at this
          omega
        have hyv : (bpmKey m y == v) = false := by
          have hxv : bpmKey m x = v := by simpa using hx
          have : bpmKey m y ≠ v := by omega
          simpa using this
        simp [List.filter_cons, hyv, hx, ih]
      · have hx2 : (bpmKey m x == v) = false := by simpa using hx
        by_cases hy : (bpmKey m y == v) = true <;>
          simp [List.filter_cons, hx2, hy, ih]

theorem filter_sortByBpm (m v : Int) (l : List Song) :
    (sortByBpm m l).filter (fun s => bpmKey m s == v)
      = l.filter (fun s => bpmKey m s == v) := by
  induction l with
  | nil => rfl
  | cons x xs ih =>
    unfold sortByBpm at ih
    show (List.orderedInsert (bpmLe m) x (List.insertionSort (bpmLe m) xs)).filter _ = _
    rw [filter_orderedInsert]
    by_cases hx : (bpmKey m x == v) = true <;>
      simp [List.filter_cons, hx, ih]

theorem pooledSongs_isSome (env : Env) (c : Constraints) :
    ∀ s ∈ pooledSongs env c, (s.bpm).isSome = true := by
  intro s hs
  unfold pooledSongs at hs
  dsimp only at hs
  split at hs
  · rw [mem_sortByBpm] at hs
    obtain ⟨a, _, rfl⟩ := List.mem_map.mp hs
    exact backfillSong_isSome (midOf c) a
  · obtain ⟨a, _, rfl⟩ := List.mem_map.mp hs
    exact backfillSong_isSome (midOf c) a

theorem finalizeSong_bpm (s : Song) : (finalizeSong s).bpm = s.bpm := rfl

theorem finalizeSong_artist (s : Song) : (finalizeSong s).artist = s.artist := rfl

theorem finalizeSong_source (s : Song) : (finalizeSong s).source = s.source.getD "unknown" := rfl

theorem finalizeSong_liked (s : Song) : (finalizeSong s).liked = s.liked.getD false := rfl

theorem playlistOf_isSome (env : Env) (c : Constraints) :
    ∀ t ∈ playlistOf env c, (t.bpm).isSome = true := by
  intro t ht
  unfold playlistOf at ht
  obtain ⟨s1, hs1, rfl⟩ := List.mem_map.mp ht
  obtain ⟨s0, hs0, rfl⟩ := List.mem_map.mp hs1
  rw [finalizeSong_bpm, enrichSong_bpm]
  exact pooledSongs_isSome env c s0 ((List.take_sublist _ _).subset hs0)

theorem playlistOf_length (env : Env) (c : Constraints) :
    (playlistOf env c).length = min (targetCount c) (pooledSongs env c).length := by
  unfold playlistOf
  simp

theorem tracksOf_generate (env : Env) (c : Constraints) (debug : Bool) :
    tracksOf (generate_from_constraints env c debug) = playlistOf env c := by
  cases debug with
  | false => rfl
  | true =>
    show validate_playlist c (playlistOf env c) = playlistOf env c
    exact validateFrom_of_isSome c _ 0 _ (playlistOf_isSome env c)

theorem isOk_generate (env : Env) (c : Constraints) (debug : Bool) :
    isOk (generate_from_constraints env c debug) = true := by
  cases debug <;> rfl

theorem mem_pooledSongs (env : Env) (c : Constraints) (s : Song)
    (hs : s ∈ pooledSongs env c) :
    ∃ s0, (s0 ∈ basePool env c
        ∨ s0 ∈ aiPool env (targetCount c - (basePool env c).length))
      ∧ s = backfillSong (midOf c) s0 := by
  unfold pooledSongs at hs
  dsimp only at hs
  split at hs
  · rw [mem_sortByBpm] at hs
    obtain ⟨a, ha, rfl⟩ := List.mem_map.mp hs
    refine ⟨a, ?_, rfl⟩
    split at ha
    · rcases List.mem_append.mp ha with h | h
      · exact Or.inl h
      · exact Or.inr h
    · exact Or.inl ha
  · obtain ⟨a, ha, rfl⟩ := List.mem_map.mp hs
    refine ⟨a, ?_, rfl⟩
    split at ha
    · rcases List.mem_append.mp ha with h | h
      · exact Or.inl h
      · exact Or.inr h
    · exact Or.inl ha

theorem basePool_exclude (env : Env) (c : Constraints) (s : Song)
    (hex : truthyS c.excludeArtist = true) (hs : s ∈ basePool env c) :
    (pyLower (pyStrip s.artist) == pyLower (pyStrip (c.excludeArtist.getD ""))) = false := by
  unfold basePool applyExclude at hs
  rw [if_pos hex] at hs
  have h2 := (List.mem_filter.mp hs).2
  simpa using h2

theorem aiPool_source (env : Env) (k : Nat) (s : Song)
    (hs : s ∈ aiPool env k) : s.source = some "AI" := by
  unfold aiPool at hs
  cases h : env.aiResult k with
  | none => rw [h] at hs; simp at hs
  | some l =>
    rw [h] at hs
    obtain ⟨a, _, rfl⟩ := List.mem_map.mp hs
    rfl

theorem playlistOf_chain (env : Env) (c : Constraints) (h : c.gradualBpm = true) :
    List.Chain' (fun a b : Track => a.bpm.getD 0 ≤ b.bpm.getD 0) (playlistOf env c) := by
  have hs : List.Sorted (bpmLe (midOf c)) (pooledSongs env c) := by
    unfold pooledSongs
    dsimp only
    rw [if_pos h]
    exact sorted_sortByBpm _ _
  have ht : List.Sorted (bpmLe (midOf c)) ((pooledSongs env c).take (targetCount c)) :=
    hs.sublist (List.take_sublist _ _)
  apply List.Pairwise.chain'
  unfold playlistOf
  rw [List.pairwise_map, List.pairwise_map]
  refine ht.imp_of_mem ?_
  intro a b ha hb hab
  have ha2 : (a.bpm).isSome = true :=
    pooledSongs_isSome env c a ((List.take_sublist _ _).subset ha)
  have hb2 : (b.bpm).isSome = true :=
    pooledSongs_isSome env c b ((List.take_sublist _ _).subset hb)
  obtain ⟨va, hva⟩ := Option.isSome_iff_exists.mp ha2
  obtain ⟨vb, hvb⟩ := Option.isSome_iff_exists.mp hb2
  have hka : bpmKey (midOf c) a = va := by unfold bpmKey; rw [hva]; rfl
  have hkb : bpmKey (midOf c) b = vb := by unfold bpmKey; rw [hvb]; rfl
  show ((finalizeSong (enrichSong _ _ a)).bpm).getD 0 ≤ ((finalizeSong (enrichSong _ _ b)).bpm).getD 0
  rw [finalizeSong_bpm, finalizeSong_bpm, enrichSong_bpm, enrichSong_bpm, hva, hvb]
  have : va ≤ vb := by
    have := hab
    unfold bpmLe at this
    rw [hka, hkb] at this
    exact this
  simpa using this

/-! ## Concrete environments used by the counterexamples and witnesses.
Each is one fixed behaviour of the external collaborators, with the
completion extraction stubbed to the failure record `{}` (malformed
response), mirroring the stubbed-collaborator scenarios of the claims. -/

/-- Reference lookup that never resolves. -/
def rlNone : String → Option RefDetails := fun _ => none

/-- A similarity ratio agreeing with `difflib` on the inputs the concrete
scenarios use: 1.0 on case-insensitively equal strings, 0.0 otherwise. -/
def exactScore (a b : String) : ℚ := if pyLower a = pyLower b then 1 else 0

/-- Empty personal library; the generative fallback supplies one song. -/
def env1 : Env :=
  { likedSongs := [], topTracks := [],
    artistGenres := fun _ => none,
    refDetails := rlNone,
    similar := fun _ _ _ => [],
    aiResult := fun _ => some
      [{ title := some "Neon Sky", artist := "Nova", bpm := some 120, releaseYear := some 2021 }],
    llm := {},
    simScore := fun _ _ => 0 }

/-- A personal-library-only request for a single song. -/
def c1c : Constraints := { explicitSongCount := some 1, useOnlyUserSongs := true }

/-- The track `env1` produces through the generative fallback. -/
def t1 : Track :=
  { title := some "Neon Sky", artist := "Nova", liked := false, mood := "Unknown",
    source := "AI", reason := "Generated by AI to meet remaining song count.",
    bpm := some 120, albumCover := some placeholderUrl, uri := none }

/-- Reference resolves to Novo Amor; Last.fm returns one Novo Amor song
(which the exclusion filter removes); the fallback then generates another
Novo Amor song. -/
def env2 : Env :=
  { likedSongs := [], topTracks := [],
    artistGenres := fun _ => none,
    refDetails := fun r => if r = "Halloween"
      then some { title := some "Halloween", artist := some "Novo Amor" } else none,
    similar := fun t a _ => if t = some "Halloween" && a = some "Novo Amor"
      then [{ title := some "Sad Song", artist := "Novo Amor" }] else [],
    aiResult := fun _ => some
      [{ title := some "Anchor", artist := "Novo Amor", bpm := some 100, releaseYear := some 2020 }],
    llm := {},
    simScore := fun _ _ => 0 }

/-- One-song request seeded by the reference track with its artist
excluded. -/
def c2c : Constraints :=
  { explicitSongCount := some 1, referenceTrack := some "Halloween",
    excludeArtist := some "novo amor" }

/-- The generative track by the excluded artist that `env2` ships. -/
def t2 : Track :=
  { title := some "Anchor", artist := "Novo Amor", liked := false, mood := "Unknown",
    source := "AI", reason := "Generated by AI to meet remaining song count.",
    bpm := some 100, albumCover := some placeholderUrl, uri := none }

/-- Same request as `env2` but Last.fm recommends a different artist, so a
non-generative track survives the exclusion filter. -/
def env2b : Env :=
  { likedSongs := [], topTracks := [],
    artistGenres := fun _ => none,
    refDetails := fun r => if r = "Halloween"
      then some { title := some "Halloween", artist := some "Novo Amor" } else none,
    similar := fun t a _ => if t = some "Halloween" && a = some "Novo Amor"
      then [{ title := some "Re Mind", artist := "Bon Iver" }] else [],
    aiResult := fun _ => none,
    llm := {},
    simScore := fun _ _ => 0 }

/-- The surviving Last.fm track of `env2b`. -/
def tW : Track :=
  { title := some "Re Mind", artist := "Bon Iver", liked := false, mood := "Unknown",
    source := "Last.fm", reason := "Recommended by Last.fm based on reference track.",
    bpm := some 95, albumCover := some placeholderUrl, uri := none }

/-- One liked pop song; the default genre constraint `["any"]` is in
force. -/
def env4 : Env :=
  { likedSongs :=
      [{ name := some "Song A", artist := "Alice", albumCover := some "coverA", uri := some "uriA", labeledGenres := some ["pop"] }],
    topTracks := [],
    artistGenres := fun _ => none,
    refDetails := rlNone,
    similar := fun _ _ _ => [],
    aiResult := fun _ => none,
    llm := {},
    simScore := fun _ _ => 0 }

def c4c : Constraints := { explicitSongCount := some 1, useOnlyUserSongs := true }

/-- The snapshot holds the very song Last.fm recommends; the enrichment
backfills its artwork and uri from the snapshot but the liked flag stays
false. -/
def env8 : Env :=
  { likedSongs :=
      [{ name := some "Anchor", artist := "Novo Amor", albumCover := some "coverU", uri := some "uriU", labeledGenres := some ["indie"] }],
    topTracks := [],
    artistGenres := fun _ => none,
    refDetails := fun r => if r = "Anchor"
      then some { title := some "Anchor", artist := some "Novo Amor" } else none,
    similar := fun t a _ => if t = some "Anchor" && a = some "Novo Amor"
      then [{ title := some "Anchor", artist := "Novo Amor" }] else [],
    aiResult := fun _ => none,
    llm := {},
    simScore := exactScore }

def c8c : Constraints := { explicitSongCount := some 1, referenceTrack := some "Anchor" }

/-- The recommended snapshot song as it appears in the result. -/
def t8 : Track :=
  { title := some "Anchor", artist := "Novo Amor", liked := false, mood := "Unknown",
    source := "Last.fm", reason := "Recommended by Last.fm based on reference track.",
    bpm := some 95, albumCover := some "coverU", uri := some "uriU" }

/-- Two generative songs arriving with decreasing tempos. -/
def env6 : Env :=
  { likedSongs := [], topTracks := [],
    artistGenres := fun _ => none,
    refDetails := rlNone,
    similar := fun _ _ _ => [],
    aiResult := fun _ => some
      [{ title := some "A", artist := "X", bpm := some 120, releaseYear := some 2020 },
       { title := some "B", artist := "Y", bpm := some 80, releaseYear := some 2020 }],
    llm := {},
    simScore := fun _ _ => 0 }

def c6c : Constraints := { explicitSongCount := some 2, gradualBpm := true }

/-- The constraints extracted from the round-trip query of claim C7 when
the completion service returns malformed text. -/
def c7q : Constraints :=
  interpret_user_query rlNone {} "cinematic 20 minute soundtrack playlist"

/-! ## Claim theorems -/

theorem applyExclude_nil (c : Constraints) : applyExclude c [] = [] := by
  unfold applyExclude
  split <;> rfl

/-- C5: for every request the returned track count equals
`min target_count |pool|`; in particular it never exceeds the resolved
target count, equals it when the combined candidate pool supplies enough
tracks, and a shortfall still yields an ok (playlist-shaped) result rather
than an error. -/
theorem claim5_track_count (env : Env) (c : Constraints) (debug : Bool) :
    (tracksOf (generate_from_constraints env c debug)).length
        = min (targetCount c) (pooledSongs env c).length
      ∧ (tracksOf (generate_from_constraints env c debug)).length ≤ targetCount c
      ∧ isOk (generate_from_constraints env c debug) = true := by
  rw [tracksOf_generate, playlistOf_length]
  exact ⟨rfl, Nat.min_le_left _ _, isOk_generate env c debug⟩

/-- C9: the enrichment pass (fuzzy artwork/uri backfill with placeholder
defaulting) is idempotent: mapping `enrichSong` twice over any candidate
list and snapshot equals mapping it once. -/
theorem claim9_enrich_idempotent (sc : String → String → ℚ) (cached : List Song)
    (l : List Song) :
    (l.map (enrichSong sc cached)).map (enrichSong sc cached)
      = l.map (enrichSong sc cached) := by
  induction l with
  | nil => rfl
  | cons x xs ih => simp [enrichSong_idem, ih]

/-- C10: the tracks component of the result is identical with debug mode on
and off, for every query and fixed collaborator behaviour; the flag only
adds the reasoning trace. -/
theorem claim10_debug_invariant (env : Env) (q : String) :
    tracksOf (generate_constrained_playlist env q true)
      = tracksOf (generate_constrained_playlist env q false) := by
  unfold generate_constrained_playlist
  rw [tracksOf_generate, tracksOf_generate]

/-- C7: the round-trip scenario: on the query
`cinematic 20 minute soundtrack playlist` with a malformed completion
response the extracted constraints carry duration 20, the cinematic genre
and mood lists, and the resolved target count is 5. -/
theorem claim7_round_trip :
    c7q.durationMinutes = 20
      ∧ c7q.genres = ["orchestral", "cinematic", "electronic", "synthwave", "ambient"]
      ∧ c7q.moodConstraints = ["epic", "dramatic", "adventurous"]
      ∧ targetCount c7q = 5 := by
  refine ⟨?_, ?_, ?_, ?_⟩ <;> decide

/-- C3 counterexample: the query mentions a car ride and no explicit
duration, yet the extracted duration is 60, not the 45 the claim
specifies. -/
theorem claim3_counterexample :
    (interpret_user_query rlNone {} "playlist for a long car ride").durationMinutes = 60
      ∧ ¬((interpret_user_query rlNone {} "playlist for a long car ride").durationMinutes
          = 45) := by
  refine ⟨?_, ?_⟩ <;> decide

/-- C3 amended: the extracted duration (with the completion stage failing)
is the regex value when the pattern occurs and 60 otherwise; there are no
scenario keyword defaults, so car-ride and study-session queries without an
explicit duration get 60, while explicit durations are honoured (hours
converted). -/
theorem claim3_duration_rule :
    (∀ (rl : String → Option RefDetails) (q : String),
      (interpret_user_query rl {} q).durationMinutes = extract_duration q)
      ∧ extract_duration "playlist for a long car ride" = 60
      ∧ extract_duration "focus music for a study session" = 60
      ∧ extract_duration "a 2 hour mix" = 120
      ∧ extract_duration "45 minute workout" = 45 := by
  refine ⟨fun rl q => rfl, ?_, ?_, ?_, ?_⟩ <;> decide

/-- C1 counterexample: a personal-library-only request over an empty
snapshot returns an ok playlist result containing a generative-fallback
track — not a structured error, and the fallback is attempted. -/
theorem claim1_counterexample :
    c1c.useOnlyUserSongs = true
      ∧ personalPool env1 c1c = []
      ∧ generate_from_constraints env1 c1c false = PyResult.ok ⟨[t1], none⟩
      ∧ t1.source = "AI" := by
  refine ⟨rfl, ?_, ?_, rfl⟩ <;> decide

/-- C1 amended: with `use_only_personal_library` set and an empty personal
pool the function does not return an error: it proceeds to the generative
fallback, whose songs (bpm-backfilled and, under gradual tempo, sorted)
become the entire candidate pool. -/
theorem claim1_empty_personal_fallback (env : Env) (c : Constraints) (debug : Bool)
    (h1 : c.useOnlyUserSongs = true) (h2 : personalPool env c = [])
    (h3 : 0 < targetCount c) :
    isOk (generate_from_constraints env c debug) = true
      ∧ pooledSongs env c
        = (if c.gradualBpm
            then sortByBpm (midOf c)
              ((aiPool env (targetCount c)).map (backfillSong (midOf c)))
            else (aiPool env (targetCount c)).map (backfillSong (midOf c))) := by
  refine ⟨isOk_generate env c debug, ?_⟩
  have hbase : basePool env c = [] := by
    unfold basePool prePool
    rw [if_pos h1, h2]
    exact applyExclude_nil c
  unfold pooledSongs
  dsimp only
  rw [hbase]
  simp [h3]

/-- C1 witness: the amended theorem applied to the concrete empty-snapshot
environment. -/
theorem claim1_witness :
    c1c.useOnlyUserSongs = true ∧ personalPool env1 c1c = [] ∧ 0 < targetCount c1c
      ∧ (isOk (generate_from_constraints env1 c1c false) = true
        ∧ pooledSongs env1 c1c
          = (if c1c.gradualBpm
              then sortByBpm (midOf c1c)
                ((aiPool env1 (targetCount c1c)).map (backfillSong (midOf c1c)))
              else (aiPool env1 (targetCount c1c)).map (backfillSong (midOf c1c)))) :=
  ⟨rfl, by decide, by decide,
    claim1_empty_personal_fallback env1 c1c false rfl (by decide) (by decide)⟩

/-- C2 counterexample: with `exclude_artist` set, a track by exactly that
artist (case-insensitively, trimmed) still appears in the result because
the generative fallback runs after the exclusion filter. -/
theorem claim2_counterexample :
    truthyS c2c.excludeArtist = true
      ∧ tracksOf (generate_from_constraints env2 c2c false) = [t2]
      ∧ pyLower (pyStrip t2.artist) = pyLower (pyStrip (c2c.excludeArtist.getD "")) := by
  refine ⟨rfl, ?_, ?_⟩ <;> decide

/-- C2 amended: the exclusion invariant holds for every track that did not
come from the generative fallback: whenever `exclude_artist` is set, every
result track is either tagged `AI` or has an artist differing
(case-insensitively, after trimming) from the excluded one. -/
theorem claim2_exclusion_scope (env : Env) (c : Constraints) (debug : Bool)
    (hex : truthyS c.excludeArtist = true) :
    ∀ t ∈ tracksOf (generate_from_constraints env c debug),
      t.source = "AI"
        ∨ (pyLower (pyStrip t.artist)
            == pyLower (pyStrip (c.excludeArtist.getD ""))) = false := by
  intro t ht
  rw [tracksOf_generate] at ht
  unfold playlistOf at ht
  obtain ⟨s1, hs1, rfl⟩ := List.mem_map.mp ht
  obtain ⟨s0, hs0, rfl⟩ := List.mem_map.mp hs1
  obtain ⟨a, ha, rfl⟩ :=
    mem_pooledSongs env c s0 ((List.take_sublist _ _).subset hs0)
  rcases ha with hbase | hai
  · right
    rw [finalizeSong_artist, enrichSong_artist, backfillSong_artist]
    exact basePool_exclude env c a hex hbase
  · left
    rw [finalizeSong_source, enrichSong_source, backfillSong_source,
      aiPool_source env _ a hai]
    rfl

/-- C2 witness: the amended theorem applied to a run in which a Last.fm
track survives the exclusion filter. -/
theorem claim2_witness :
    truthyS c2c.excludeArtist = true
      ∧ tW ∈ tracksOf (generate_from_constraints env2b c2c false)
      ∧ (tW.source = "AI"
        ∨ (pyLower (pyStrip tW.artist)
            == pyLower (pyStrip (c2c.excludeArtist.getD ""))) = false) :=
  ⟨rfl, by decide, claim2_exclusion_scope env2b c2c false rfl tW (by decide)⟩

/-- C4 counterexample: a personal-only request with the default genre
constraint `["any"]` and no artist constraint: the liked pop song passes
the (absent) artist filter, yet the pool is empty because the genre filter
is still applied and treats `any` as a literal substring pattern. -/
theorem claim4_counterexample :
    c4c.useOnlyUserSongs = true
      ∧ c4c.genres = ["any"]
      ∧ truthyS c4c.targetArtist = false
      ∧ env4.likedSongs ≠ []
      ∧ env4.likedSongs.all (personalKeep env4 c4c) = false
      ∧ personalPool env4 c4c = [] := by
  refine ⟨rfl, rfl, rfl, ?_, ?_, ?_⟩ <;> decide

/-- C4 amended: the personal pool keeps exactly the snapshot entries that
pass the artist substring test AND the genre test (the genre lookup is
applied to artist-matched entries as well); `any` is matched as a literal
substring of the genre labels, with no special case; and the extracted
target artist never reaches the returned constraints (the extraction
result holding it is discarded), so the artist filter is vacuous in the
composed pipeline. -/
theorem claim4_personal_filter :
    (∀ (env : Env) (c : Constraints) (s : Song),
      s ∈ personalPool env c
        ↔ ∃ s0, s0 ∈ env.likedSongs ++ env.topTracks
            ∧ personalKeep env c s0 = true ∧ tagPersonal s0 = s)
      ∧ (∀ (ag : String → Option (List String)) (a : String) (gs : List String),
        song_matches_genre ag { artist := a, labeledGenres := some gs } ["any"]
          = gs.any (fun g => containsSub (pyLower g) "any"))
      ∧ (∀ (rl : String → Option RefDetails) (llm : LlmJson) (q : String),
        (interpret_user_query rl llm q).targetArtist = none) := by
  refine ⟨?_, ?_, fun rl llm q => rfl⟩
  · intro env c s
    unfold personalPool
    rw [List.mem_map]
    constructor
    · rintro ⟨s0, h0, rfl⟩
      exact ⟨s0, (List.mem_filter.mp h0).1, (List.mem_filter.mp h0).2, rfl⟩
    · rintro ⟨s0, h0, hk, rfl⟩
      exact ⟨s0, List.mem_filter.mpr ⟨h0, hk⟩, rfl⟩
  · intro ag a gs
    unfold song_matches_genre
    have h : pyLower "any" = "any" := rfl
    simp [h]

/-- C6: with gradual tempo requested, every result track has a known (thus
backfilled) bpm and the bpm values are non-decreasing across the final
order; and the sort used is stable: for every tempo value the songs
holding it keep their prior pool order. -/
theorem claim6_gradual_tempo (env : Env) (c : Constraints) (debug : Bool)
    (h : c.gradualBpm = true) :
    (∀ t ∈ tracksOf (generate_from_constraints env c debug), (t.bpm).isSome = true)
      ∧ List.Chain' (fun a b : Track => a.bpm.getD 0 ≤ b.bpm.getD 0)
          (tracksOf (generate_from_constraints env c debug))
      ∧ (∀ (m v : Int) (l : List Song),
        (sortByBpm m l).filter (fun s => bpmKey m s == v)
          = l.filter (fun s => bpmKey m s == v)) := by
  rw [tracksOf_generate]
  exact ⟨playlistOf_isSome env c, playlistOf_chain env c h, filter_sortByBpm⟩

/-- C6 witness: the gradual-tempo theorem applied to the concrete run that
receives two generative songs with decreasing tempos. -/
theorem claim6_witness :
    c6c.gradualBpm = true
      ∧ ((∀ t ∈ tracksOf (generate_from_constraints env6 c6c false),
            (t.bpm).isSome = true)
        ∧ List.Chain' (fun a b : Track => a.bpm.getD 0 ≤ b.bpm.getD 0)
            (tracksOf (generate_from_constraints env6 c6c false))
        ∧ (∀ (m v : Int) (l : List Song),
          (sortByBpm m l).filter (fun s => bpmKey m s == v)
            = l.filter (fun s => bpmKey m s == v))) :=
  ⟨rfl, claim6_gradual_tempo env6 c6c false rfl⟩

/-- C8 counterexample: the result contains a track whose (title, artist)
pair is, after trimming and lowercasing, present in the snapshot, yet its
liked flag is false: no recomputation against the snapshot happens. -/
theorem claim8_counterexample :
    tracksOf (generate_from_constraints env8 c8c false) = [t8]
      ∧ t8.liked = false
      ∧ (env8.likedSongs ++ env8.topTracks).any (fun s0 =>
          (pyLower (pyStrip (s0.name.getD "")) == pyLower (pyStrip (t8.title.getD "")))
            && (pyLower (pyStrip s0.artist) == pyLower (pyStrip t8.artist))) = true := by
  refine ⟨?_, rfl, ?_⟩ <;> decide

/-- C8 amended: enrichment backfills only artwork and uri; the liked flag
it ships is whatever the source stage set, defaulted to false — both for a
single candidate and across the whole assembled playlist. -/
theorem claim8_liked_not_recomputed :
    (∀ (sc : String → String → ℚ) (cached : List Song) (s : Song),
      (finalizeSong (enrichSong sc cached s)).liked = s.liked.getD false)
      ∧ (∀ (env : Env) (c : Constraints) (debug : Bool),
        (tracksOf (generate_from_constraints env c debug)).map (fun t => t.liked)
          = ((pooledSongs env c).take (targetCount c)).map
              (fun s => s.liked.getD false)) := by
  constructor
  · intro sc cached s
    rw [finalizeSong_liked, enrichSong_liked]
  · intro env c debug
    rw [tracksOf_generate]
    unfold playlistOf
    induction ((pooledSongs env c).take (targetCount c)) with
    | nil => rfl
    | cons x xs ih => simp [finalizeSong_liked, enrichSong_liked, ih]
